import Mathlib

/-!
Shallow embedding of the tekxchange backend (Rust, Rocket + SeaORM):
the product service (`src/src/services/product_service.rs`), its DTOs
(`src/src/models/product.rs`), and the startup admin-seeding routine
(`src/src/main.rs`).

The database is modelled as explicit state: a list of product rows and a
list of user rows.  SeaORM queries that can fail only through the
connection (`DbErr`) are modelled as always reaching the database, so the
`OrmError` constructor is never produced by the embedded operations; the
claims about service behaviour are all conditioned on the underlying
query succeeding.
-/

namespace Tekxchange

/-- `rust_decimal::Decimal` as used by the service: a scaled integer whose
value is `mantissa / 10 ^ scale`.  The service stores it verbatim. -/
structure Decimal where
  mantissa : Int
  scale : Nat
deriving DecidableEq, Repr

/-- The exact rational value of a `Decimal`. -/
def Decimal.toRat (d : Decimal) : ℚ :=
  (d.mantissa : ℚ) / (10 : ℚ) ^ d.scale

/-- `⌊log₂ n⌋` by structural recursion on a fuel argument (`natLog2 f n`
is `⌊log₂ n⌋` whenever `n ≤ 2 ^ f`). -/
def natLog2 : Nat → Nat → Nat
  | 0, _ => 0
  | fuel + 1, n => if 2 ≤ n then natLog2 fuel (n / 2) + 1 else 0

/-- Nearest integer to `a / b` for naturals (with `b > 0`), ties to even. -/
def divNearestEven (a b : Nat) : Nat :=
  let q := a / b
  let r := a % b
  if 2 * r < b then q
  else if b < 2 * r then q + 1
  else if q % 2 = 0 then q else q + 1

/-- `⌊log₂ (n / d)⌋` for positive naturals `n`, `d`: the unique `k` with
`2 ^ k ≤ n / d < 2 ^ (k + 1)`. -/
def ratFloorLog2 (n d : Nat) : Int :=
  let a : Int := (natLog2 n n : Int)
  let b : Int := (natLog2 d d : Int)
  let k0 : Int := a - b
  let lt : Bool :=
    if 0 ≤ k0 then n < d * 2 ^ k0.toNat else n * 2 ^ (-k0).toNat < d
  if lt then k0 - 1 else k0

/-- The rational value `m * 2 ^ g`. -/
def dyadic (m : Nat) (g : Int) : ℚ :=
  if 0 ≤ g then ((m * 2 ^ g.toNat : Nat) : ℚ) else (m : ℚ) / ((2 ^ (-g).toNat : Nat) : ℚ)

/-- Modelled from the spec: the decimal-to-floating-point conversion used
by `get_product_by_id` (`f64::try_from` on a `Decimal`, from the external
`rust_decimal` crate, which is not part of this repository's sources).
Idealized as IEEE-754 binary64 rounding: round to nearest, ties to even,
onto the grid `m * 2 ^ g` with 53-bit significand and subnormal cutoff
`g ≥ -1074`; `none` on overflow.  The resulting float is identified with
its exact rational value. -/
def roundF64 (q : ℚ) : Option ℚ :=
  if q = 0 then some 0
  else
    let n := q.num.natAbs
    let d := q.den
    let k := ratFloorLog2 n d
    let g : Int := max (k - 52) (-1074)
    let m := divNearestEven (n * 2 ^ (-g).toNat) (d * 2 ^ g.toNat)
    if 2 ^ 2098 ≤ m * 2 ^ (g + 1074).toNat then none
    else some (if q < 0 then -dyadic m g else dyadic m g)

/-- `models::role::Role` (only the `Admin` variant is named in the
provided sources; `Basic` stands for any non-admin role). -/
inductive Role where
  | Admin : Role
  | Basic : Role
deriving DecidableEq, Repr

/-- A row of the `user` table (the fields the embedded code reads).  The
stored password string stands for the password hash; `role := none` is a
user with no assigned role. -/
structure User where
  id : Int
  username : String
  email : String
  password : String
  role : Option Role
deriving DecidableEq, Repr

/-- A row of the `product` table (`entity::product::Model`). -/
structure Product where
  id : Int
  product_title : String
  description : String
  price : Decimal
  created_by : Int
  location_city : String
  location_state : String
  location_country : String
  location_zip : String
  location_latitude : Option Decimal
  location_longitude : Option Decimal
deriving DecidableEq, Repr

/-- The database state seen by the services: product rows, user rows, and
the auto-increment counters for the two primary keys. -/
structure Db where
  products : List Product
  users : List User
  nextProductId : Int
  nextUserId : Int
deriving DecidableEq, Repr

/-- `ProductDetails` (create/update input DTO). -/
structure ProductDetails where
  description : String
  title : String
  price : Decimal
  country : String
  state : String
  city : String
  zip : String
  latitude : Option Decimal
  longitude : Option Decimal
deriving DecidableEq, Repr

/-- `MinUserReturnDto`. -/
structure MinUserReturnDto where
  id : Int
  username : String
deriving DecidableEq, Repr

/-- `ProductReturn` (read output DTO); the `f64` price is identified with
its exact rational value. -/
structure ProductReturn where
  title : String
  description : String
  price : ℚ
  created_by : MinUserReturnDto
deriving DecidableEq, Repr

/-- The authenticated caller (`AuthUser`). -/
structure AuthUser where
  user : User
deriving DecidableEq, Repr

/-- `ProductServiceError`.  The `DbError` and `OrmError` payloads (a
connection error and a SeaORM `DbErr`) are external types the responder
discards, so they are dropped here. -/
inductive ProductServiceError where
  | DbError : ProductServiceError
  | OrmError : ProductServiceError
  | NotFound : Int → ProductServiceError
  | NotAllowed : ProductServiceError
  | Unknown : ProductServiceError
deriving DecidableEq, Repr

/-- The `thiserror`-derived `Display` messages of `ProductServiceError`. -/
def ProductServiceError.message : ProductServiceError → String
  | .DbError => ""
  | .OrmError => ""
  | .NotFound id => "Product with id " ++ toString id ++ " not found"
  | .NotAllowed => "You are not authorized to perform changes on this product"
  | .Unknown => "An unknown error occurred"

/-- The JSON body `json!({"error": message})` built by the responder. -/
structure ErrorBody where
  error : String
deriving DecidableEq, Repr

/-- An HTTP response as the responder builds it: a status code and an
optional JSON error body. -/
structure HttpResponse where
  status : Nat
  body : Option ErrorBody
deriving DecidableEq, Repr

/-- `impl Responder for ProductServiceError`. -/
def respond_to : ProductServiceError → HttpResponse
  | .DbError => ⟨500, none⟩
  | .OrmError => ⟨500, none⟩
  | .Unknown => ⟨500, none⟩
  | .NotFound id => ⟨404, some ⟨(ProductServiceError.NotFound id).message⟩⟩
  | .NotAllowed => ⟨403, some ⟨ProductServiceError.NotAllowed.message⟩⟩

/-- The active model built by `create_new_product` (its local `to_create`
binding), with the auto-increment primary key the insert will assign. -/
def to_create (db : Db) (create : ProductDetails) (creating_user : AuthUser) : Product :=
  { id := db.nextProductId
    price := create.price
    description := create.description
    product_title := create.title
    created_by := creating_user.user.id
    location_city := create.city
    location_state := create.state
    location_country := create.country
    location_latitude := create.latitude
    location_longitude := create.longitude
    location_zip := create.zip }

/-- `ProductService::create_new_product`: build an active model with the
supplied fields and the caller as `created_by`, insert it, return the new
id. -/
def create_new_product (db : Db) (create : ProductDetails) (creating_user : AuthUser) :
    Except ProductServiceError Int × Db :=
  (Except.ok (to_create db create creating_user).id,
    { db with
        products := db.products ++ [to_create db create creating_user]
        nextProductId := db.nextProductId + 1 })

/-- `ProductService::get_product_by_id`: `find` with
`find_also_related(user)` filtered on `id` (a left join of the product
row with the user row referenced by `created_by`), then map to the DTO,
converting the decimal price to a float. -/
def get_product_by_id (db : Db) (id : Int) : Except ProductServiceError ProductReturn :=
  let found := (db.products.find? (fun p => p.id = id)).map
    (fun prod => (prod, db.users.find? (fun u => u.id = prod.created_by)))
  match found with
  | some (prod, userOpt) =>
    match userOpt with
    | none => Except.error ProductServiceError.Unknown
    | some user =>
      match roundF64 prod.price.toRat with
      | none => Except.error ProductServiceError.Unknown
      | some p =>
        Except.ok
          { title := prod.product_title
            description := prod.description
            price := p
            created_by := { id := user.id, username := user.username } }
  | none => Except.error (ProductServiceError.NotFound id)

/-- The SQL `UPDATE` issued by `update_product_by_id`'s active model: the
columns set from `ProductDetails` are overwritten on the row, every other
column (`id`, `created_by`) is left as stored. -/
def applyUpdate (product : ProductDetails) (p : Product) : Product :=
  { p with
      description := product.description
      location_city := product.city
      location_country := product.country
      location_state := product.state
      location_zip := product.zip
      location_latitude := product.latitude
      location_longitude := product.longitude
      price := product.price
      product_title := product.title }

/-- `ProductService::update_product_by_id`: read the product through
`get_product_by_id` (propagating its error), reject a caller whose id
differs from the owner's with `NotAllowed`, re-fetch the row as an active
model, overwrite the mutable fields and update. -/
def update_product_by_id (db : Db) (id : Int) (product : ProductDetails) (user : AuthUser) :
    Except ProductServiceError Unit × Db :=
  match get_product_by_id db id with
  | Except.error e => (Except.error e, db)
  | Except.ok db_product =>
    if db_product.created_by.id ≠ user.user.id then
      (Except.error ProductServiceError.NotAllowed, db)
    else
      match db.products.find? (fun p => p.id = id) with
      | none => (Except.error (ProductServiceError.NotFound id), db)
      | some _ =>
        (Except.ok (),
          { db with
              products := db.products.map
                (fun p => if p.id = id then applyUpdate product p else p) })

/-- `ProductService::delete_product_by_id`: fetch by primary key, reject a
caller whose id differs from the stored `created_by` with `NotAllowed`,
otherwise delete the row by primary key. -/
def delete_product_by_id (db : Db) (id : Int) (user : AuthUser) :
    Except ProductServiceError Unit × Db :=
  match db.products.find? (fun p => p.id = id) with
  | none => (Except.error (ProductServiceError.NotFound id), db)
  | some product =>
    if product.created_by ≠ user.user.id then
      (Except.error ProductServiceError.NotAllowed, db)
    else
      (Except.ok (),
        { db with products := db.products.filter (fun p => ¬ p.id = id) })

/-- Modelled from the spec: the admin username constant
(`crate::models::user::ADMIN_USERNAME`; `models/user.rs` is not among the
provided sources, so the concrete string is arbitrary). -/
def ADMIN_USERNAME : String := "admin"

/-- `UserRegister` (registration input DTO). -/
structure UserRegister where
  email : String
  password : String
  username : String
deriving DecidableEq, Repr

/-- The process environment read at boot: the `ADMIN_EMAIL` and
`ADMIN_PASSWORD` variables, `none` when a variable is absent. -/
structure Env where
  adminEmail : Option String
  adminPassword : Option String
deriving DecidableEq, Repr

/-- Modelled from the spec: `UserService::username_exists` (the user
service's sources are not provided; the spec describes it as a
username-existence check). -/
def username_exists (db : Db) (name : String) : Bool :=
  db.users.any (fun u => u.username = name)

/-- Modelled from the spec: `UserService::create_user` (sources not
provided; the spec describes registration as an ORM insert of a user with
a hashed password and no admin role).  Returns the new user's id. -/
def create_user (db : Db) (register : UserRegister) : Int × Db :=
  let u : User :=
    { id := db.nextUserId
      username := register.username
      email := register.email
      password := register.password
      role := none }
  (db.nextUserId, { db with users := db.users ++ [u], nextUserId := db.nextUserId + 1 })

/-- Modelled from the spec: `UserService::update_role_for_user` (sources
not provided; the spec describes it as role assignment for a user id). -/
def update_role_for_user (db : Db) (id : Int) (role : Role) : Db :=
  { db with
      users := db.users.map (fun u => if u.id = id then { u with role := some role } else u) }

/-- The admin-seeding part of the `rocket` startup routine
(`src/src/main.rs`): check whether the admin username exists; if not,
read `ADMIN_EMAIL` and `ADMIN_PASSWORD`, create the admin user and assign
it the admin role.  Every `.unwrap()` on a missing environment variable
aborts the process, modelled as `none`. -/
def seedAdmin (env : Env) (db : Db) : Option Db :=
  let found_admin := username_exists db ADMIN_USERNAME
  if found_admin = false then
    match env.adminEmail with
    | none => none
    | some admin_email =>
      match env.adminPassword with
      | none => none
      | some admin_password =>
        let user_register : UserRegister :=
          { email := admin_email, password := admin_password, username := ADMIN_USERNAME }
        let r := create_user db user_register
        some (update_role_for_user r.2 r.1 Role.Admin)
  else
    some db

/-- `n` runs of the startup seeding routine in succession (an aborted run
aborts the whole sequence). -/
def seedN (env : Env) : Nat → Db → Option Db
  | 0, db => some db
  | n + 1, db => (seedAdmin env db).bind (seedN env n)

/-- The number of stored users whose username is the admin username. -/
def adminCount (db : Db) : Nat :=
  db.users.countP (fun u => u.username = ADMIN_USERNAME)

/-- Fixture: a registered user. -/
def alice : User := { id := 1, username := "alice", email := "alice@example.com", password := "pw", role := none }

/-- Fixture: a second registered user. -/
def bob : User := { id := 2, username := "bob", email := "bob@example.com", password := "pw", role := none }

/-- Fixture: product details priced at the decimal 0.1. -/
def detailsTenth : ProductDetails :=
  { description := "a desk", title := "desk", price := { mantissa := 1, scale := 1 }
    country := "US", state := "CA", city := "SF", zip := "94103"
    latitude := none, longitude := none }

/-- Fixture: product details priced at the decimal 0.2. -/
def detailsFifth : ProductDetails :=
  { description := "a lamp", title := "lamp", price := { mantissa := 2, scale := 1 }
    country := "US", state := "CA", city := "SF", zip := "94103"
    latitude := none, longitude := none }

/-- Fixture: a store holding no products and the users alice and bob. -/
def emptyDb : Db := { products := [], users := [alice, bob], nextProductId := 1, nextUserId := 3 }

/-- Fixture: a product row owned by user id 99, which no user row has. -/
def orphanProduct : Product :=
  { id := 1, product_title := "ghost", description := "no owner", price := { mantissa := 5, scale := 0 }
    created_by := 99, location_city := "SF", location_state := "CA", location_country := "US"
    location_zip := "94103", location_latitude := none, location_longitude := none }

/-- Fixture: a store holding the orphaned product and the user alice. -/
def orphanDb : Db := { products := [orphanProduct], users := [alice], nextProductId := 2, nextUserId := 3 }

/-- Fixture: a product row owned by alice. -/
def aliceProduct : Product :=
  { id := 1, product_title := "chair", description := "a chair", price := { mantissa := 7, scale := 0 }
    created_by := 1, location_city := "SF", location_state := "CA", location_country := "US"
    location_zip := "94103", location_latitude := none, location_longitude := none }

/-- Fixture: a store holding alice's product and the users alice and bob. -/
def ownedDb : Db := { products := [aliceProduct], users := [alice, bob], nextProductId := 2, nextUserId := 3 }

/-- Fixture: alice's product after an update with `detailsTenth`. -/
def updatedAliceProduct : Product := applyUpdate detailsTenth aliceProduct

/-- Fixture: the store `ownedDb` after alice updates her product. -/
def updatedDb : Db := { ownedDb with products := [updatedAliceProduct] }

/-- Fixture: an environment with both admin variables set. -/
def fullEnv : Env := { adminEmail := some "admin@example.com", adminPassword := some "hunter2" }

/-- Fixture: an environment with `ADMIN_EMAIL` absent. -/
def noEmailEnv : Env := { adminEmail := none, adminPassword := some "hunter2" }

/-- Fixture: a store with no users at all. -/
def noUserDb : Db := { products := [], users := [], nextProductId := 1, nextUserId := 1 }

/-- Fixture: the admin user as the seeding routine creates it from
`fullEnv`. -/
def seededAdmin : User :=
  { id := 1, username := ADMIN_USERNAME, email := "admin@example.com"
    password := "hunter2", role := some Role.Admin }

/-- Fixture: the store after seeding `noUserDb` with `fullEnv`. -/
def seededDb : Db :=
  { products := [], users := [seededAdmin], nextProductId := 1, nextUserId := 2 }

/-! Helper lemmas, shared between the claim theorems. -/

theorem roundF64_tenth :
    roundF64 (Decimal.toRat { mantissa := 1, scale := 1 }) =
      some (3602879701896397 / 36028797018963968) := by
  have hk : ratFloorLog2 1 10 = -4 := by decide
  have h : Decimal.toRat { mantissa := 1, scale := 1 } = 1 / 10 := by norm_num [Decimal.toRat]
  rw [h, roundF64]
  norm_num [hk, divNearestEven, dyadic]
  simp
  norm_num

theorem roundF64_fifth :
    roundF64 (Decimal.toRat { mantissa := 2, scale := 1 }) =
      some (3602879701896397 / 18014398509481984) := by
  have hk : ratFloorLog2 1 5 = -3 := by decide
  have h : Decimal.toRat { mantissa := 2, scale := 1 } = 1 / 5 := by norm_num [Decimal.toRat]
  rw [h, roundF64]
  norm_num [hk, divNearestEven, dyadic]
  simp
  norm_num

theorem tenth_not_dyadic :
    (3602879701896397 : ℚ) / 36028797018963968 ≠ Decimal.toRat { mantissa := 1, scale := 1 } := by
  norm_num [Decimal.toRat]

theorem fifth_not_dyadic :
    (3602879701896397 : ℚ) / 18014398509481984 ≠ Decimal.toRat { mantissa := 2, scale := 1 } := by
  norm_num [Decimal.toRat]

set_option maxRecDepth 10000 in
theorem roundF64_seven :
    roundF64 (Decimal.toRat { mantissa := 7, scale := 0 }) = some 7 := by
  have hk : ratFloorLog2 7 1 = 2 := by decide
  have h : Decimal.toRat { mantissa := 7, scale := 0 } = 7 := by norm_num [Decimal.toRat]
  rw [h, roundF64]
  norm_num [hk, divNearestEven, dyadic]
  simp
  norm_num

theorem get_not_found (db : Db) (id : Int)
    (h : ∀ p ∈ db.products, p.id ≠ id) :
    get_product_by_id db id = Except.error (ProductServiceError.NotFound id) := by
  have hf : db.products.find? (fun p => p.id = id) = none := by
    rw [List.find?_eq_none]
    intro x hx
    simpa using h x hx
  simp [get_product_by_id, hf]

theorem get_ok_found (db : Db) (id : Int) (ret : ProductReturn)
    (h : get_product_by_id db id = Except.ok ret) :
    ∃ prod u q,
      db.products.find? (fun p => p.id = id) = some prod ∧
      db.users.find? (fun v => v.id = prod.created_by) = some u ∧
      roundF64 prod.price.toRat = some q ∧
      ret = { title := prod.product_title, description := prod.description,
              price := q, created_by := { id := u.id, username := u.username } } := by
  unfold get_product_by_id at h
  cases hp : db.products.find? (fun p => p.id = id) with
  | none => rw [hp] at h; simp at h
  | some prod =>
    rw [hp] at h
    simp only [Option.map_some'] at h
    cases hu : db.users.find? (fun v => v.id = prod.created_by) with
    | none => rw [hu] at h; simp at h
    | some u =>
      rw [hu] at h
      cases hc : roundF64 prod.price.toRat with
      | none => rw [hc] at h; simp at h
      | some q =>
        rw [hc] at h
        simp only [Except.ok.injEq] at h
        exact ⟨prod, u, q, rfl, hu, hc, h.symm⟩

theorem get_ne_notAllowed (db : Db) (id : Int) :
    get_product_by_id db id ≠ Except.error ProductServiceError.NotAllowed := by
  intro h
  unfold get_product_by_id at h
  cases hp : db.products.find? (fun p => p.id = id) with
  | none => rw [hp] at h; simp at h
  | some prod =>
    rw [hp] at h
    simp only [Option.map_some'] at h
    cases hu : db.users.find? (fun v => v.id = prod.created_by) with
    | none => rw [hu] at h; simp at h
    | some u =>
      rw [hu] at h
      cases hc : roundF64 prod.price.toRat with
      | none => rw [hc] at h; simp at h
      | some q => rw [hc] at h; simp at h

theorem adminCount_update_role (db : Db) (id : Int) (r : Role) :
    adminCount (update_role_for_user db id r) = adminCount db := by
  unfold adminCount update_role_for_user
  rw [List.countP_map]
  exact List.countP_congr (fun a _ => by by_cases hid : a.id = id <;> simp [hid])

theorem adminCount_pos_iff (db : Db) :
    username_exists db ADMIN_USERNAME = true ↔ 1 ≤ adminCount db := by
  unfold username_exists adminCount
  constructor
  · intro h
    exact List.countP_pos_iff.mpr (List.any_eq_true.mp h)
  · intro h
    exact List.any_eq_true.mpr (List.countP_pos_iff.mp h)

theorem adminCount_create_admin (db : Db) (em pw : String) :
    adminCount (create_user db { email := em, password := pw, username := ADMIN_USERNAME }).2 =
      adminCount db + 1 := by
  unfold adminCount create_user
  simp [List.countP_append, List.countP_cons]

theorem seedAdmin_step (env : Env) (db db' : Db) (h : seedAdmin env db = some db') :
    adminCount db' ≤ max (adminCount db) 1 ∧ (1 ≤ adminCount db → db' = db) := by
  unfold seedAdmin at h
  by_cases hex : username_exists db ADMIN_USERNAME = false
  · rw [if_pos hex] at h
    have hcnt : adminCount db = 0 := by
      by_contra hne
      have h1 : 1 ≤ adminCount db := Nat.one_le_iff_ne_zero.mpr hne
      have h2 := (adminCount_pos_iff db).mpr h1
      rw [h2] at hex
      exact absurd hex (by simp)
    cases hee : env.adminEmail with
    | none => rw [hee] at h; simp at h
    | some em =>
      rw [hee] at h
      cases hep : env.adminPassword with
      | none => rw [hep] at h; simp at h
      | some pw =>
        rw [hep] at h
        simp only [Option.some.injEq] at h
        constructor
        · rw [← h, adminCount_update_role, adminCount_create_admin, hcnt]
          simp
        · intro hge
          rw [hcnt] at hge
          exact absurd hge (by simp)
  · rw [if_neg hex] at h
    simp only [Option.some.injEq] at h
    exact ⟨h ▸ le_max_left _ _, fun _ => h.symm⟩

theorem seedN_bound (env : Env) : ∀ (n : Nat) (db db' : Db),
    seedN env n db = some db' → adminCount db' ≤ max (adminCount db) 1 := by
  intro n
  induction n with
  | zero =>
    intro db db' h
    simp only [seedN, Option.some.injEq] at h
    exact h ▸ le_max_left _ _
  | succ n ih =>
    intro db db' h
    unfold seedN at h
    cases hs : seedAdmin env db with
    | none => rw [hs] at h; simp at h
    | some mid =>
      rw [hs] at h
      simp only [Option.some_bind] at h
      have h1 := (seedAdmin_step env db mid hs).1
      have h2 := ih mid db' h
      omega

theorem get_eval (db : Db) (id : Int) (prod : Product) (u : User) (q : ℚ)
    (hp : db.products.find? (fun p => p.id = id) = some prod)
    (hu : db.users.find? (fun v => v.id = prod.created_by) = some u)
    (hc : roundF64 prod.price.toRat = some q) :
    get_product_by_id db id = Except.ok
      { title := prod.product_title, description := prod.description, price := q,
        created_by := { id := u.id, username := u.username } } := by
  simp [get_product_by_id, hp, hu, hc]

theorem create_get_spec (db : Db) (details : ProductDetails) (auth : AuthUser) (q : ℚ)
    (hfresh : ∀ p ∈ db.products, p.id ≠ db.nextProductId)
    (huser : db.users.find? (fun u => u.id = auth.user.id) = some auth.user)
    (hconv : roundF64 details.price.toRat = some q) :
    (create_new_product db details auth).1 = Except.ok db.nextProductId ∧
    ((create_new_product db details auth).2.products.find?
        (fun p => p.id = db.nextProductId)).map (fun p => p.price) = some details.price ∧
    get_product_by_id (create_new_product db details auth).2 db.nextProductId =
      Except.ok { title := details.title, description := details.description, price := q,
                  created_by := { id := auth.user.id, username := auth.user.username } } := by
  have hnone : db.products.find? (fun p => p.id = db.nextProductId) = none := by
    rw [List.find?_eq_none]
    intro x hx
    simpa using hfresh x hx
  have hfind : (create_new_product db details auth).2.products.find?
      (fun p => p.id = db.nextProductId) = some (to_create db details auth) := by
    show (db.products ++ [to_create db details auth]).find?
      (fun p => p.id = db.nextProductId) = some (to_create db details auth)
    rw [List.find?_append, hnone]
    simp [List.find?, to_create]
  exact ⟨rfl, by rw [hfind]; rfl,
    get_eval (create_new_product db details auth).2 db.nextProductId
      (to_create db details auth) auth.user q hfind huser hconv⟩

/-! The claim theorems. -/

/-- C2 (amended): for every `Decimal` price accepted by
`create_new_product`, the stored row's price equals the creation input
exactly, and the price returned by a subsequent successful
`get_product_by_id` is the binary64 floating-point conversion of that
stored decimal — not in general the decimal itself. -/
theorem price_stored_exactly_returned_rounded (db : Db) (details : ProductDetails)
    (auth : AuthUser) (q : ℚ)
    (hfresh : ∀ p ∈ db.products, p.id ≠ db.nextProductId)
    (huser : db.users.find? (fun u => u.id = auth.user.id) = some auth.user)
    (hconv : roundF64 details.price.toRat = some q) :
    ((create_new_product db details auth).2.products.find?
        (fun p => p.id = db.nextProductId)).map (fun p => p.price) = some details.price ∧
    (get_product_by_id (create_new_product db details auth).2 db.nextProductId).map
        (fun r => r.price) = Except.ok q := by
  obtain ⟨-, h2, h3⟩ := create_get_spec db details auth q hfresh huser hconv
  exact ⟨h2, by rw [h3]; rfl⟩

/-- Counterexample for C2 as stated: creating a product priced at the
decimal 0.1 and reading it back returns the binary64 value
3602879701896397/2^55, which differs from 0.1: the returned price does
not equal the creation input. -/
theorem price_roundtrip_cex :
    (get_product_by_id (create_new_product emptyDb detailsTenth { user := alice }).2 1).map
        (fun r => r.price) = Except.ok (3602879701896397 / 36028797018963968) ∧
    (3602879701896397 : ℚ) / 36028797018963968 ≠ Decimal.toRat detailsTenth.price := by
  constructor
  · have h : get_product_by_id (create_new_product emptyDb detailsTenth { user := alice }).2 1 =
        Except.ok { title := detailsTenth.title, description := detailsTenth.description,
                    price := 3602879701896397 / 36028797018963968,
                    created_by := { id := alice.id, username := alice.username } } :=
      (create_get_spec emptyDb detailsTenth { user := alice }
        (3602879701896397 / 36028797018963968) (by simp [emptyDb]) (by decide)
        roundF64_tenth).2.2
    rw [h]
    rfl
  · exact tenth_not_dyadic

/-- Witness for C2 (amended): the decimal 0.1 is stored exactly and
returned as its binary64 conversion. -/
theorem price_stored_exactly_returned_rounded_witness :
    ((create_new_product emptyDb detailsTenth { user := alice }).2.products.find?
        (fun p => p.id = emptyDb.nextProductId)).map (fun p => p.price) =
      some detailsTenth.price ∧
    (get_product_by_id (create_new_product emptyDb detailsTenth { user := alice }).2
        emptyDb.nextProductId).map (fun r => r.price) =
      Except.ok (3602879701896397 / 36028797018963968) :=
  price_stored_exactly_returned_rounded emptyDb detailsTenth { user := alice }
    (3602879701896397 / 36028797018963968) (by simp [emptyDb]) (by decide) roundF64_tenth

/-- C3 (amended): for every `ProductDetails` input and every valid owning
user (a stored user row), after `create_new_product` succeeds with id
`n`, `get_product_by_id n` succeeds and returns a record whose title and
description match the creation input, whose price is the binary64
conversion of the input price (not in general the input itself), and
whose `created_by` identifies the creating user. -/
theorem create_then_get_matches (db : Db) (details : ProductDetails)
    (auth : AuthUser) (q : ℚ)
    (hfresh : ∀ p ∈ db.products, p.id ≠ db.nextProductId)
    (huser : db.users.find? (fun u => u.id = auth.user.id) = some auth.user)
    (hconv : roundF64 details.price.toRat = some q) :
    (create_new_product db details auth).1 = Except.ok db.nextProductId ∧
    get_product_by_id (create_new_product db details auth).2 db.nextProductId =
      Except.ok { title := details.title, description := details.description, price := q,
                  created_by := { id := auth.user.id, username := auth.user.username } } := by
  obtain ⟨h1, -, h3⟩ := create_get_spec db details auth q hfresh huser hconv
  exact ⟨h1, h3⟩

/-- Counterexample for C3 as stated: creating a product priced at the
decimal 0.2 yields a retrievable record whose title, description and
owner match, but whose price field (3602879701896397/2^54) differs from
the supplied price, so not all supplied fields match. -/
theorem create_then_get_price_mismatch_cex :
    get_product_by_id (create_new_product emptyDb detailsFifth { user := alice }).2 1 =
      Except.ok { title := "lamp", description := "a lamp",
                  price := 3602879701896397 / 18014398509481984,
                  created_by := { id := 1, username := "alice" } } ∧
    (3602879701896397 : ℚ) / 18014398509481984 ≠ Decimal.toRat detailsFifth.price :=
  ⟨(create_get_spec emptyDb detailsFifth { user := alice }
      (3602879701896397 / 18014398509481984) (by simp [emptyDb]) (by decide)
      roundF64_fifth).2.2,
    fifth_not_dyadic⟩

/-- Witness for C3 (amended): alice creates a product priced at the
decimal 0.2; reading id 1 returns her record with the converted price. -/
theorem create_then_get_matches_witness :
    (create_new_product emptyDb detailsFifth { user := alice }).1 =
      Except.ok emptyDb.nextProductId ∧
    get_product_by_id (create_new_product emptyDb detailsFifth { user := alice }).2
        emptyDb.nextProductId =
      Except.ok { title := detailsFifth.title, description := detailsFifth.description,
                  price := 3602879701896397 / 18014398509481984,
                  created_by := { id := alice.id, username := alice.username } } :=
  create_then_get_matches emptyDb detailsFifth { user := alice }
    (3602879701896397 / 18014398509481984) (by simp [emptyDb]) (by decide) roundF64_fifth

/-- C4: for every id with no product row in the store, `get_product_by_id`
returns the `NotFound` error carrying that id (and no other outcome), the
underlying query itself having succeeded. -/
theorem get_missing_product_not_found (db : Db) (id : Int)
    (h : ∀ p ∈ db.products, p.id ≠ id) :
    get_product_by_id db id = Except.error (ProductServiceError.NotFound id) :=
  get_not_found db id h

/-- Witness for C4: reading id 7 from a store with no products. -/
theorem get_missing_product_not_found_witness :
    get_product_by_id emptyDb 7 = Except.error (ProductServiceError.NotFound 7) :=
  get_missing_product_not_found emptyDb 7 (by simp [emptyDb])

/-- C8: for every id whose product row exists but whose joined owner user
row is absent, `get_product_by_id` returns the `Unknown` error. -/
theorem get_orphaned_product_unknown (db : Db) (id : Int) (prod : Product)
    (hp : db.products.find? (fun p => p.id = id) = some prod)
    (hu : db.users.find? (fun u => u.id = prod.created_by) = none) :
    get_product_by_id db id = Except.error ProductServiceError.Unknown := by
  simp [get_product_by_id, hp, hu]

/-- Witness for C8: reading the orphaned product (owner id 99, no such
user row) returns `Unknown`. -/
theorem get_orphaned_product_unknown_witness :
    get_product_by_id orphanDb 1 = Except.error ProductServiceError.Unknown :=
  get_orphaned_product_unknown orphanDb 1 orphanProduct (by decide) (by decide)

/-- C1 (amended): for every product id, product details and authenticated
user, if the product exists and its `created_by` owner id differs from
the caller's user id, then `delete_product_by_id` returns `NotAllowed`
and leaves the store unchanged, and `update_product_by_id` leaves the
store unchanged and returns `NotAllowed` whenever the preliminary read
(`get_product_by_id`) succeeds — when that read fails (owner row missing
or price not convertible) the update instead propagates the read's error,
still changing nothing. -/
theorem nonowner_mutation_rejected (db : Db) (id : Int) (details : ProductDetails)
    (user : AuthUser) (prod : Product)
    (hp : db.products.find? (fun p => p.id = id) = some prod)
    (hown : prod.created_by ≠ user.user.id) :
    delete_product_by_id db id user = (Except.error ProductServiceError.NotAllowed, db) ∧
    (update_product_by_id db id details user).2 = db ∧
    (∀ ret, get_product_by_id db id = Except.ok ret →
      update_product_by_id db id details user =
        (Except.error ProductServiceError.NotAllowed, db)) := by
  have hdel : delete_product_by_id db id user =
      (Except.error ProductServiceError.NotAllowed, db) := by
    unfold delete_product_by_id
    rw [hp]
    simp [hown]
  refine ⟨hdel, ?_, ?_⟩
  · unfold update_product_by_id
    cases hres : get_product_by_id db id with
    | error e => rfl
    | ok ret =>
      obtain ⟨prod2, u, q, hp2, hu, hc, hret⟩ := get_ok_found db id ret hres
      have hpe : prod2 = prod := by
        rw [hp] at hp2
        exact (Option.some.injEq _ _ ▸ hp2).symm ▸ rfl
      have hne : ret.created_by.id ≠ user.user.id := by
        rw [hret]
        have huid : u.id = prod2.created_by := by simpa using List.find?_some hu
        simpa [huid, hpe] using hown
      simp [hne]
  · intro ret hres
    obtain ⟨prod2, u, q, hp2, hu, hc, hret⟩ := get_ok_found db id ret hres
    have hpe : prod2 = prod := by
      rw [hp] at hp2
      exact (Option.some.injEq _ _ ▸ hp2).symm ▸ rfl
    have hne : ret.created_by.id ≠ user.user.id := by
      rw [hret]
      have huid : u.id = prod2.created_by := by simpa using List.find?_some hu
      simpa [huid, hpe] using hown
    unfold update_product_by_id
    rw [hres]
    simp [hne]

/-- Counterexample for C1 as stated: in a store whose only product (id 1)
is owned by user id 99, with no user row 99, the non-owner alice's update
returns `Unknown`, not `NotAllowed`, even though the product exists and
its owner differs from the caller. -/
theorem nonowner_update_unknown_cex :
    orphanDb.products.find? (fun p => p.id = 1) = some orphanProduct ∧
    orphanProduct.created_by ≠ alice.id ∧
    update_product_by_id orphanDb 1 detailsTenth { user := alice } =
      (Except.error ProductServiceError.Unknown, orphanDb) := by
  exact ⟨by decide, by decide, rfl⟩

/-- Witness for C1 (amended): bob, who does not own alice's product,
fails to delete or update it, and the store is unchanged. -/
theorem nonowner_mutation_rejected_witness :
    delete_product_by_id ownedDb 1 { user := bob } =
      (Except.error ProductServiceError.NotAllowed, ownedDb) ∧
    (update_product_by_id ownedDb 1 detailsTenth { user := bob }).2 = ownedDb ∧
    (∀ ret, get_product_by_id ownedDb 1 = Except.ok ret →
      update_product_by_id ownedDb 1 detailsTenth { user := bob } =
        (Except.error ProductServiceError.NotAllowed, ownedDb)) :=
  nonowner_mutation_rejected ownedDb 1 detailsTenth { user := bob } aliceProduct
    (by decide) (by decide)

/-- C6: for every existing product and every update via
`update_product_by_id` that succeeds, the product's `created_by` owner
reference (and every row's id) is unchanged: the update writes only the
mutable columns. -/
theorem update_preserves_owner (db : Db) (id : Int) (details : ProductDetails)
    (user : AuthUser) (db' : Db)
    (h : update_product_by_id db id details user = (Except.ok (), db')) :
    db'.products.map (fun p => p.created_by) = db.products.map (fun p => p.created_by) ∧
    db'.products.map (fun p => p.id) = db.products.map (fun p => p.id) := by
  unfold update_product_by_id at h
  split at h
  · simp at h
  · split at h
    · simp at h
    · split at h
      · simp at h
      · have hdb : db' =
            { db with products :=
                db.products.map (fun p => if p.id = id then applyUpdate details p else p) } := by
          have h2 := congrArg Prod.snd h
          simpa using h2.symm
        subst hdb
        constructor
        · simp only [List.map_map]
          exact List.map_congr_left
            (fun a _ => by by_cases hid : a.id = id <;> simp [applyUpdate, hid])
        · simp only [List.map_map]
          exact List.map_congr_left
            (fun a _ => by by_cases hid : a.id = id <;> simp [applyUpdate, hid])

/-- Witness for C6: alice successfully updates her product; the stored
owner and id columns are unchanged. -/
theorem update_preserves_owner_witness :
    updatedDb.products.map (fun p => p.created_by) =
      ownedDb.products.map (fun p => p.created_by) ∧
    updatedDb.products.map (fun p => p.id) = ownedDb.products.map (fun p => p.id) :=
  update_preserves_owner ownedDb 1 detailsTenth { user := alice } updatedDb (by
    have hget : get_product_by_id ownedDb 1 =
        Except.ok { title := "chair", description := "a chair", price := 7,
                    created_by := { id := 1, username := "alice" } } := by
      simp [get_product_by_id, ownedDb, aliceProduct, alice, bob, List.find?, roundF64_seven]
    unfold update_product_by_id
    rw [hget]
    simp [ownedDb, updatedDb, updatedAliceProduct, aliceProduct, alice, List.find?])

/-- C10: in `update_product_by_id` the existence check precedes the
ownership check: for every id with no product row the call returns
`NotFound` for every caller, and `NotAllowed` is only ever returned when
a product with that id exists and its owner's user row is retrievable. -/
theorem update_existence_before_ownership (db : Db) (id : Int)
    (details : ProductDetails) (user : AuthUser) :
    ((∀ p ∈ db.products, p.id ≠ id) →
      update_product_by_id db id details user =
        (Except.error (ProductServiceError.NotFound id), db)) ∧
    ((update_product_by_id db id details user).1 = Except.error ProductServiceError.NotAllowed →
      ∃ prod, prod ∈ db.products ∧ prod.id = id ∧
        ∃ u, u ∈ db.users ∧ u.id = prod.created_by) := by
  constructor
  · intro h
    have hg := get_not_found db id h
    unfold update_product_by_id
    rw [hg]
  · intro h
    unfold update_product_by_id at h
    cases hres : get_product_by_id db id with
    | error e =>
      rw [hres] at h
      simp at h
      exact absurd (h ▸ hres) (get_ne_notAllowed db id)
    | ok ret =>
      obtain ⟨prod, u, q, hp, hu, hc, hret⟩ := get_ok_found db id ret hres
      exact ⟨prod, List.mem_of_find?_eq_some hp, by simpa using List.find?_some hp,
        u, List.mem_of_find?_eq_some hu, by simpa using List.find?_some hu⟩

/-- Witness for C10: updating a missing id (7) returns `NotFound 7` even
for a caller who owns nothing. -/
theorem update_existence_before_ownership_witness :
    update_product_by_id emptyDb 7 detailsTenth { user := alice } =
      (Except.error (ProductServiceError.NotFound 7), emptyDb) :=
  (update_existence_before_ownership emptyDb 7 detailsTenth { user := alice }).1
    (by simp [emptyDb])

/-- C7: the error-to-response mapping is fixed and total over the closed
error set: `DbError`, `OrmError` and `Unknown` map to HTTP 500 with no
body; `NotFound` maps to HTTP 404 with a JSON error body carrying its
message; `NotAllowed` maps to HTTP 403 with a JSON error body carrying
its message. -/
theorem error_response_mapping :
    respond_to ProductServiceError.DbError = { status := 500, body := none } ∧
    respond_to ProductServiceError.OrmError = { status := 500, body := none } ∧
    respond_to ProductServiceError.Unknown = { status := 500, body := none } ∧
    (∀ id : Int, respond_to (ProductServiceError.NotFound id) =
      { status := 404
        body := some { error := "Product with id " ++ toString id ++ " not found" } }) ∧
    respond_to ProductServiceError.NotAllowed =
      { status := 403
        body := some { error := "You are not authorized to perform changes on this product" } } :=
  ⟨rfl, rfl, rfl, fun _ => rfl, rfl⟩

/-- C5: running the startup seeding routine any number of times in
succession creates at most one user with the admin username: if such a
user already exists the routine changes nothing (no user created, no role
assigned), and after any number of successful runs the number of admin
accounts never exceeds `max` of its initial value and one. -/
theorem seeding_at_most_one_admin (env : Env) (db : Db) :
    (1 ≤ adminCount db → seedAdmin env db = some db) ∧
    (∀ (n : Nat) (db' : Db), seedN env n db = some db' →
      adminCount db' ≤ max (adminCount db) 1) := by
  constructor
  · intro h
    have hex : username_exists db ADMIN_USERNAME = true := (adminCount_pos_iff db).mpr h
    unfold seedAdmin
    rw [if_neg (by simp [hex])]
  · intro n db' h
    exact seedN_bound env n db db' h

/-- Witness for C5: re-running the seeder on an already-seeded store
changes nothing, and two successive runs on an empty store leave exactly
one admin account. -/
theorem seeding_at_most_one_admin_witness :
    seedAdmin fullEnv seededDb = some seededDb ∧
    adminCount seededDb ≤ max (adminCount noUserDb) 1 :=
  ⟨(seeding_at_most_one_admin fullEnv seededDb).1 (by decide),
    (seeding_at_most_one_admin fullEnv noUserDb).2 2 seededDb (by decide)⟩

/-- C9: on boot, if no user with the admin username exists and either of
the environment variables `ADMIN_EMAIL` or `ADMIN_PASSWORD` is absent,
the startup routine aborts the process (modelled as `none`); and when an
admin already exists the environment is not read at all — the routine's
outcome is the same for every environment. -/
theorem seeding_env_requirements (env : Env) (db : Db) :
    (username_exists db ADMIN_USERNAME = false →
      (env.adminEmail = none ∨ env.adminPassword = none) → seedAdmin env db = none) ∧
    (username_exists db ADMIN_USERNAME = true →
      ∀ env2 : Env, seedAdmin env db = seedAdmin env2 db) := by
  constructor
  · intro hno habs
    unfold seedAdmin
    rw [if_pos hno]
    rcases habs with h | h
    · rw [h]
    · cases he : env.adminEmail with
      | none => rfl
      | some em => rw [h]
  · intro hyes env2
    unfold seedAdmin
    rw [if_neg (by simp [hyes]), if_neg (by simp [hyes])]

/-- Witness for C9: with no admin user and `ADMIN_EMAIL` unset, the boot
routine aborts. -/
theorem seeding_env_requirements_witness :
    seedAdmin noEmailEnv noUserDb = none :=
  (seeding_env_requirements noEmailEnv noUserDb).1 (by decide) (Or.inl rfl)

end Tekxchange
